import Mathlib

/-!
Verification development for the SAP Maintenance-order adaptor.

The Go sources are shallowly embedded as pure Lean functions:

* Go `time.Time` instants are modelled as `GoTime := Nat` (unix seconds);
  `time.Time.Format(time.RFC3339)` / `time.Parse(time.RFC3339, _)` and
  `strconv.FormatFloat(_, 'f', -1, 64)` / `strconv.ParseFloat` are library
  functions outside this repository, so they enter the model as the fields of
  a `TimeModel` record that every translation function receives explicitly.
* Go `float64` values are modelled as `GoFloat := ℚ`.
* Go `error` values produced with `fmt.Errorf` are modelled by `GoError`:
  `fmt.Errorf("p: %w", err)` becomes `GoError.wrap "p: " err` (its message is
  the prefix followed by the wrapped message, exactly as `Error()` renders
  it), and a `fmt.Errorf` without `%w` becomes `GoError.base msg`.
* The `sap.Client` remote operations are embedded twice: `Client` /
  `ClientAction` record whether the live (network) or the simulator branch is
  taken (`internal/config/config.go`, `NewClient` and the three operations),
  and `Gateway` abstracts the per-call responses seen by the service layer so
  that the orchestration in `internal/services/maintenance.go` can be run
  against an arbitrary back end.
* The polling loop `MonitorOrderStatus` is embedded as a fold over the list
  of events its `select` statement processes: `.cancelled e` is the
  `<-ctx.Done()` branch firing with `ctx.Err() = e`, and `.tick r` is the
  `<-ticker.C` branch firing with `r` the result of the status fetch on that
  iteration.
-/

/-- Go `time.Time` instants, as unix seconds. -/
abbrev GoTime := Nat

/-- Go `float64` values, modelled as rationals. -/
abbrev GoFloat := ℚ

/-- Go `error` values as produced via `fmt.Errorf`: `wrap p e` is
`fmt.Errorf(p + "%w", e)` and `base s` an unwrapped error with message `s`. -/
inductive GoError where
  | base : String → GoError
  | wrap : String → GoError → GoError
deriving DecidableEq, Repr

/-- `Error()` on a `GoError`: wrapping prepends its prefix to the wrapped
message, matching `fmt.Errorf("prefix: %w", err).Error()`. -/
def GoError.message : GoError → String
  | .base s => s
  | .wrap p e => p ++ e.message

/-- The Go standard-library functions used by the translators, passed in
explicitly: RFC3339 formatting/parsing of `time.Time` and
`strconv.FormatFloat(_, 'f', -1, 64)` / `strconv.ParseFloat(_, 64)`
(parse failure is `none`). -/
structure TimeModel where
  formatRFC3339 : GoTime → String
  parseRFC3339 : String → Option GoTime
  formatFloat : GoFloat → String
  parseFloat : String → Option GoFloat

/-- `models.MaintenanceOperation`. -/
structure MaintenanceOperation where
  text : String
  workCenter : String
  duration : GoFloat
  durationUnit : String
deriving DecidableEq, Repr

/-- `models.MaintenanceOrderEvent` (optional timestamps are `*time.Time`). -/
structure MaintenanceOrderEvent where
  equipmentID : String
  functionalLocation : String
  plant : String
  description : String
  priority : String
  maintenanceOrderType : String
  plannedStartTime : Option GoTime
  plannedEndTime : Option GoTime
  operations : List MaintenanceOperation
deriving DecidableEq, Repr

/-- `models.SAPNotificationRequest`. -/
structure SAPNotificationRequest where
  notificationType : String
  description : String
  equipment : String
  functionalLocation : String
  plant : String
  priority : String
deriving DecidableEq, Repr

/-- The `D` payload of `models.SAPNotificationResponse`. -/
structure SAPNotificationResponseD where
  notification : String
  description : String
  plant : String
deriving DecidableEq, Repr

/-- `models.SAPNotificationResponse`. -/
structure SAPNotificationResponse where
  d : SAPNotificationResponseD
deriving DecidableEq, Repr

/-- `models.SAPOrderOperation` (one `to_MaintenanceOrderOperation` line of a
create-order request). -/
structure SAPOrderOperation where
  operationText : String
  workCenter : String
  plant : String
  operationControlKey : String
  operationStandardDuration : String
  operationDurationUnit : String
deriving DecidableEq, Repr

/-- `models.SAPOrderRequest`; Go `omitempty` string fields keep their zero
value `""` when unset. -/
structure SAPOrderRequest where
  maintenanceOrderType : String
  description : String
  equipment : String
  functionalLocation : String
  plant : String
  maintenancePlanningPlant : String
  priority : String
  maintOrdBasicStartDateTime : String
  maintOrdBasicEndDateTime : String
  maintenanceNotification : String
  toMaintenanceOrderOperation : List SAPOrderOperation
deriving DecidableEq, Repr

/-- The `__metadata` envelope of SAP OData responses. -/
structure SAPMetadata where
  id : String
  uri : String
  type : String
deriving DecidableEq, Repr

/-- `models.SAPOrderOperationResponse`. -/
structure SAPOrderOperationResponse where
  maintenanceOrder : String
  maintenanceOrderOperation : String
  operationText : String
  workCenter : String
  operationControlKey : String
  operationStandardDuration : String
  operationDurationUnit : String
  operationStatus : String
  actualWorkQuantity : String
  workQuantityUnit : String
  metadata : SAPMetadata
deriving DecidableEq, Repr

/-- The `D` payload of `models.SAPOrderResponse`; the Go wrapper struct
around the operation `results` array is flattened into the list itself. -/
structure SAPOrderResponseD where
  maintenanceOrder : String
  maintenanceOrderType : String
  description : String
  equipment : String
  plant : String
  orderStatus : String
  maintOrdBasicStartDateTime : String
  maintOrdBasicEndDateTime : String
  maintenanceNotification : String
  metadata : SAPMetadata
  toMaintenanceOrderOperation : List SAPOrderOperationResponse
deriving DecidableEq, Repr

/-- `models.SAPOrderResponse`. -/
structure SAPOrderResponse where
  d : SAPOrderResponseD
deriving DecidableEq, Repr

/-- `models.MaintenanceOrderResponse`. -/
structure MaintenanceOrderResponse where
  orderID : String
  notificationID : String
  status : String
  message : String
  createdAt : GoTime
deriving DecidableEq, Repr

/-- `models.OperationStatus`. -/
structure OperationStatus where
  operationID : String
  text : String
  status : String
  actualWorkQuantity : GoFloat
  workQuantityUnit : String
deriving DecidableEq, Repr

/-- `models.MaintenanceOrderStatus`. -/
structure MaintenanceOrderStatus where
  orderID : String
  status : String
  description : String
  equipmentID : String
  plant : String
  notificationID : String
  actualStartTime : Option GoTime
  actualEndTime : Option GoTime
  operations : List OperationStatus
deriving DecidableEq, Repr

/-- `sap.ConvertMaintenanceOrderEventToNotificationRequest`
(`internal/config/config.go:493`; the copy in `internal/models/models.go:169`
is identical). -/
def ConvertMaintenanceOrderEventToNotificationRequest
    (event : MaintenanceOrderEvent) : SAPNotificationRequest :=
  { notificationType := "M1"
    description := event.description
    equipment := event.equipmentID
    functionalLocation := event.functionalLocation
    plant := event.plant
    priority := event.priority }

/-- `sap.ConvertMaintenanceOrderEventToOrderRequest`
(`internal/config/config.go:505`; the copy in `internal/models/models.go:181`
is identical).  The Go `for`/`append` loop over `event.Operations` is the
`List.map`; the conditional assignments to the two timestamp fields become
`Option` matches producing the Go zero value `""` when absent. -/
def ConvertMaintenanceOrderEventToOrderRequest (tm : TimeModel)
    (event : MaintenanceOrderEvent) (notificationID : String) : SAPOrderRequest :=
  { maintenanceOrderType := event.maintenanceOrderType
    description := event.description
    equipment := event.equipmentID
    functionalLocation := event.functionalLocation
    plant := event.plant
    maintenancePlanningPlant := event.plant
    priority := event.priority
    maintOrdBasicStartDateTime :=
      match event.plannedStartTime with
      | some t => tm.formatRFC3339 t
      | none => ""
    maintOrdBasicEndDateTime :=
      match event.plannedEndTime with
      | some t => tm.formatRFC3339 t
      | none => ""
    maintenanceNotification := notificationID
    toMaintenanceOrderOperation := event.operations.map fun op =>
      { operationText := op.text
        workCenter := op.workCenter
        plant := event.plant
        operationControlKey := event.maintenanceOrderType
        operationStandardDuration := tm.formatFloat op.duration
        operationDurationUnit := op.durationUnit } }

/-- `sap.ConvertSAPOrderResponseToStatus` (`internal/config/config.go:541`):
timestamps are parsed only when non-empty and silently dropped on parse
failure; an operation quantity is parsed only when non-empty and left at the
Go zero value `0` on failure. -/
def ConvertSAPOrderResponseToStatus (tm : TimeModel)
    (resp : SAPOrderResponse) : MaintenanceOrderStatus :=
  { orderID := resp.d.maintenanceOrder
    status := resp.d.orderStatus
    description := resp.d.description
    equipmentID := resp.d.equipment
    plant := resp.d.plant
    notificationID := resp.d.maintenanceNotification
    actualStartTime :=
      if resp.d.maintOrdBasicStartDateTime ≠ "" then
        tm.parseRFC3339 resp.d.maintOrdBasicStartDateTime
      else none
    actualEndTime :=
      if resp.d.maintOrdBasicEndDateTime ≠ "" then
        tm.parseRFC3339 resp.d.maintOrdBasicEndDateTime
      else none
    operations := resp.d.toMaintenanceOrderOperation.map fun op =>
      { operationID := op.maintenanceOrderOperation
        text := op.operationText
        status := op.operationStatus
        actualWorkQuantity :=
          if op.actualWorkQuantity ≠ "" then
            match tm.parseFloat op.actualWorkQuantity with
            | some q => q
            | none => 0
          else 0
        workQuantityUnit := op.workQuantityUnit } }

/-- `fmt.Sprintf("%0*d", width, n)` for the mock id generators. -/
def padZeros (width : Nat) (n : Nat) : String :=
  let s := toString n
  if s.length < width then String.mk (List.replicate (width - s.length) '0') ++ s else s

/-- The mock notification id `fmt.Sprintf("200000%03d", unix%1000)`
(`internal/config/config.go:313`), with `unix` the `time.Now().Unix()`
observed by that call. -/
def mockNotificationID (t : GoTime) : String :=
  "200000" ++ padZeros 3 (t % 1000)

/-- The mock order id `fmt.Sprintf("400000%03d", unix%1000)`
(`internal/config/config.go:331`). -/
def mockOrderID (t : GoTime) : String :=
  "400000" ++ padZeros 3 (t % 1000)

/-- The Go byte access `orderID[len(orderID)-1]`: order ids are ASCII, so
the last `Char` of the Lean string is the last Go byte (the default is never
reached behind the source's `len(orderID) > 0` guard). -/
def lastChar (s : String) : Char :=
  s.toList.getLastD ' '

/-- The status switch of `createMockOrderStatusResponse`
(`internal/config/config.go:406-421`): `status` starts as `"CRTD"` and, when
the id is non-empty, is overridden according to the id's last byte; a
non-digit last byte falls through the `switch` and keeps `"CRTD"`. -/
def mockStatusFromID (orderID : String) : String :=
  if orderID.length > 0 then
    let lastDigit := lastChar orderID
    if lastDigit = '0' ∨ lastDigit = '1' ∨ lastDigit = '2' then "CRTD"
    else if lastDigit = '3' ∨ lastDigit = '4' ∨ lastDigit = '5' then "REL"
    else if lastDigit = '6' ∨ lastDigit = '7' ∨ lastDigit = '8' then "TECO"
    else if lastDigit = '9' then "CLSD"
    else "CRTD"
  else "CRTD"

/-- `Client.createMockNotificationResponse` (`internal/config/config.go:311`),
with `t` the `time.Now().Unix()` observed inside the call. -/
def createMockNotificationResponse (t : GoTime)
    (req : SAPNotificationRequest) : SAPNotificationResponse :=
  { d := { notification := mockNotificationID t
           description := req.description
           plant := req.plant } }

/-- `Client.createMockOrderResponse` (`internal/config/config.go:329`): the
mock order id is generated from the current time, each requested operation
line is echoed back with operation id `fmt.Sprintf("%04d", (i+1)*10)`, and
the order status is `"CRTD"`. -/
def createMockOrderResponse (t : GoTime)
    (req : SAPOrderRequest) : SAPOrderResponse :=
  let orderID := mockOrderID t
  { d := { maintenanceOrder := orderID
           maintenanceOrderType := req.maintenanceOrderType
           description := req.description
           equipment := req.equipment
           plant := req.plant
           orderStatus := "CRTD"
           maintOrdBasicStartDateTime := req.maintOrdBasicStartDateTime
           maintOrdBasicEndDateTime := req.maintOrdBasicEndDateTime
           maintenanceNotification := req.maintenanceNotification
           metadata :=
             { id := ".../A_MaintenanceOrder(\x27" ++ orderID ++ "\x27)"
               uri := ".../A_MaintenanceOrder(\x27" ++ orderID ++ "\x27)"
               type := "API_MAINTENANCE_ORDER.A_MaintenanceOrderType" }
           toMaintenanceOrderOperation :=
             req.toMaintenanceOrderOperation.mapIdx fun i op =>
               let operationID := padZeros 4 ((i + 1) * 10)
               { maintenanceOrder := orderID
                 maintenanceOrderOperation := operationID
                 operationText := op.operationText
                 workCenter := op.workCenter
                 operationControlKey := op.operationControlKey
                 operationStandardDuration := op.operationStandardDuration
                 operationDurationUnit := op.operationDurationUnit
                 operationStatus := ""
                 actualWorkQuantity := ""
                 workQuantityUnit := ""
                 metadata :=
                   { id := ".../A_MaintenanceOrderOperation(MaintenanceOrder=\x27" ++
                       orderID ++ "\x27,MaintenanceOrderOperation=\x27" ++ operationID ++ "\x27)"
                     uri := ".../A_MaintenanceOrderOperation(MaintenanceOrder=\x27" ++
                       orderID ++ "\x27,MaintenanceOrderOperation=\x27" ++ operationID ++ "\x27)"
                     type := "API_MAINTENANCE_ORDER.A_MaintenanceOrderOperationType" } } } }

/-- `Client.createMockOrderStatusResponse` (`internal/config/config.go:405`):
echoes the requested order id, derives the status from the id's last byte,
and stamps the current time (and current time plus eight hours) into the
basic start/end fields. -/
def createMockOrderStatusResponse (tm : TimeModel) (t : GoTime)
    (orderID : String) : SAPOrderResponse :=
  { d := { maintenanceOrder := orderID
           maintenanceOrderType := "PM01"
           description := "Mock maintenance order"
           equipment := "10000045"
           plant := "1000"
           orderStatus := mockStatusFromID orderID
           maintOrdBasicStartDateTime := tm.formatRFC3339 t
           maintOrdBasicEndDateTime := tm.formatRFC3339 (t + 8 * 3600)
           maintenanceNotification := "200000123"
           metadata :=
             { id := ".../A_MaintenanceOrder(\x27" ++ orderID ++ "\x27)"
               uri := ".../A_MaintenanceOrder(\x27" ++ orderID ++ "\x27)"
               type := "API_MAINTENANCE_ORDER.A_MaintenanceOrderType" }
           toMaintenanceOrderOperation :=
             [{ maintenanceOrder := orderID
                maintenanceOrderOperation := "0010"
                operationText := "Mock operation"
                workCenter := "MOCK-WC01"
                operationControlKey := "PM01"
                operationStandardDuration := "4"
                operationDurationUnit := "H"
                operationStatus := "CNF"
                actualWorkQuantity := "4.0"
                workQuantityUnit := "H"
                metadata :=
                  { id := ".../A_MaintenanceOrderOperation(MaintenanceOrder=\x27" ++
                      orderID ++ "\x27,MaintenanceOrderOperation=\x270010\x27)"
                    uri := ".../A_MaintenanceOrderOperation(MaintenanceOrder=\x27" ++
                      orderID ++ "\x27,MaintenanceOrderOperation=\x270010\x27)"
                    type := "API_MAINTENANCE_ORDER.A_MaintenanceOrderOperationType" } }] } }

/-- `config.SAPConfig` (`internal/config/config.go:21`). -/
structure SAPConfig where
  baseURL : String
  username : String
  password : String
  clientID : String
  clientSecret : String
  tokenURL : String
  timeout : Nat
  simulatorMode : Bool
deriving DecidableEq, Repr

/-- `sap.Client` (`internal/config/config.go:93`); the embedded
`http.Client` carries no decision-relevant state beyond the timeout already
recorded in the config. -/
structure Client where
  config : SAPConfig
  simulatorMode : Bool
deriving DecidableEq, Repr

/-- `sap.NewClient` (`internal/config/config.go:101`):
`simulatorMode := cfg.SimulatorMode || cfg.BaseURL == "" || cfg.BaseURL == "simulator"`. -/
def NewClient (cfg : SAPConfig) : Client :=
  { config := cfg
    simulatorMode := cfg.simulatorMode || cfg.baseURL == "" || cfg.baseURL == "simulator" }

/-- What one client operation does: return an in-memory mock response, or
reach the network (the live HTTP branch, whose wire-level outcome is outside
this model). -/
inductive ClientAction (α : Type) where
  | mock : α → ClientAction α
  | network : ClientAction α
deriving DecidableEq, Repr

/-- Whether a client operation stayed in memory. -/
def ClientAction.isMock {α : Type} : ClientAction α → Bool
  | .mock _ => true
  | .network => false

/-- `Client.CreateNotification` (`internal/config/config.go:115`): the
simulator branch is taken, before any HTTP work, exactly when
`c.simulatorMode` is set; `t` is the `time.Now().Unix()` observed by the
mock generator. -/
def Client.CreateNotificationAction (c : Client) (t : GoTime)
    (req : SAPNotificationRequest) : ClientAction SAPNotificationResponse :=
  if c.simulatorMode then .mock (createMockNotificationResponse t req) else .network

/-- `Client.CreateOrder` (`internal/config/config.go:181`), same dispatch. -/
def Client.CreateOrderAction (c : Client) (t : GoTime)
    (req : SAPOrderRequest) : ClientAction SAPOrderResponse :=
  if c.simulatorMode then .mock (createMockOrderResponse t req) else .network

/-- `Client.GetOrder` (`internal/config/config.go:248`), same dispatch. -/
def Client.GetOrderAction (c : Client) (tm : TimeModel) (t : GoTime)
    (orderID : String) : ClientAction SAPOrderResponse :=
  if c.simulatorMode then .mock (createMockOrderStatusResponse tm t orderID) else .network

/-- The error `fmt.Errorf("SAP API returned status %d: %s", code, body)`
raised by the live client on a non-success HTTP status
(`internal/config/config.go:164,231,293`). -/
def sapAPIStatusError (code : Nat) (body : String) : GoError :=
  .base ("SAP API returned status " ++ toString code ++ ": " ++ body)

/-- The back-end gateway as seen by the service layer: the per-call results
of the three `sap.Client` operations.  An arbitrary `Gateway` stands for an
arbitrary back end (live responses, simulator, or a test double). -/
structure Gateway where
  createNotification : SAPNotificationRequest → Except GoError SAPNotificationResponse
  createOrder : SAPOrderRequest → Except GoError SAPOrderResponse
  getOrder : String → Except GoError SAPOrderResponse

/-- The simulated gateway: a `sap.Client` with `simulatorMode` set returns
the mock responses with a nil error (`internal/config/config.go:123-125,
190-192, 255-257`); `tN`, `tO`, `tG` are the `time.Now()` instants observed
by the three calls. -/
def simulatedGateway (tm : TimeModel) (tN tO tG : GoTime) : Gateway :=
  { createNotification := fun req => .ok (createMockNotificationResponse tN req)
    createOrder := fun req => .ok (createMockOrderResponse tO req)
    getOrder := fun orderID => .ok (createMockOrderStatusResponse tm tG orderID) }

/-- One remote call issued against the gateway, with its request. -/
inductive GatewayCall where
  | createNotification : SAPNotificationRequest → GatewayCall
  | createOrder : SAPOrderRequest → GatewayCall
  | getOrder : String → GatewayCall
deriving DecidableEq, Repr

/-- `MaintenanceService.ProcessMaintenanceOrderEvent`
(`internal/services/maintenance.go:29`): create the notification, create the
order referencing the returned notification id, read the order back and
check the echoed id; each step's failure is wrapped with that step's message
via `fmt.Errorf("...: %w", err)` and aborts the sequence.  `now` is the
`time.Now()` stamped into the success response. -/
def ProcessMaintenanceOrderEvent (tm : TimeModel) (g : Gateway)
    (event : MaintenanceOrderEvent) (now : GoTime) :
    Except GoError MaintenanceOrderResponse :=
  let notificationReq := ConvertMaintenanceOrderEventToNotificationRequest event
  match g.createNotification notificationReq with
  | .error err => .error (.wrap "failed to create SAP notification: " err)
  | .ok notificationResp =>
    let notificationID := notificationResp.d.notification
    let orderReq := ConvertMaintenanceOrderEventToOrderRequest tm event notificationID
    match g.createOrder orderReq with
    | .error err => .error (.wrap "failed to create SAP order: " err)
    | .ok orderResp =>
      let orderID := orderResp.d.maintenanceOrder
      match g.getOrder orderID with
      | .error err => .error (.wrap "failed to verify order creation: " err)
      | .ok verifyResp =>
        if verifyResp.d.maintenanceOrder ≠ orderID then
          .error (.base ("order verification failed: expected " ++ orderID ++
            ", got " ++ verifyResp.d.maintenanceOrder))
        else
          .ok { orderID := orderID
                notificationID := notificationID
                status := verifyResp.d.orderStatus
                message := "Maintenance order created successfully"
                createdAt := now }

/-- The gateway calls `ProcessMaintenanceOrderEvent` issues, in order,
mirroring its control flow: each call is emitted before its result is
inspected, and a failed step emits no further calls. -/
def ProcessMaintenanceOrderEventCalls (tm : TimeModel) (g : Gateway)
    (event : MaintenanceOrderEvent) : List GatewayCall :=
  let notificationReq := ConvertMaintenanceOrderEventToNotificationRequest event
  GatewayCall.createNotification notificationReq ::
    match g.createNotification notificationReq with
    | .error _ => []
    | .ok notificationResp =>
      let orderReq := ConvertMaintenanceOrderEventToOrderRequest tm event
        notificationResp.d.notification
      GatewayCall.createOrder orderReq ::
        match g.createOrder orderReq with
        | .error _ => []
        | .ok orderResp => [GatewayCall.getOrder orderResp.d.maintenanceOrder]

/-- `MaintenanceService.GetMaintenanceOrderStatus`
(`internal/services/maintenance.go:88`): one gateway read, wrapped error on
failure, translated to the status view on success. -/
def GetMaintenanceOrderStatus (tm : TimeModel) (g : Gateway)
    (orderID : String) : Except GoError MaintenanceOrderStatus :=
  match g.getOrder orderID with
  | .error err => .error (.wrap "failed to get order from SAP: " err)
  | .ok orderResp => .ok (ConvertSAPOrderResponseToStatus tm orderResp)

/-- An HTTP response written by the handler: an `ErrorResponse` with its
status code, error text and machine code (the `Details` payload carries no
decision logic and is omitted), or the status view with HTTP 200. -/
inductive HandlerResult where
  | errorResp (status : Nat) (errMsg code : String) : HandlerResult
  | okResp (st : MaintenanceOrderStatus) : HandlerResult
deriving DecidableEq, Repr

/-- `MaintenanceHandler.GetMaintenanceOrder`
(`internal/handlers/maintenance.go:98`): empty id gives 400; a service error
whose full message equals `"SAP API returned status 404"` gives 404
ORDER_NOT_FOUND, any other error 500 RETRIEVAL_ERROR; success gives 200. -/
def GetMaintenanceOrder (tm : TimeModel) (g : Gateway)
    (orderID : String) : HandlerResult :=
  if orderID = "" then
    .errorResp 400 "Order ID is required" "MISSING_ORDER_ID"
  else
    match GetMaintenanceOrderStatus tm g orderID with
    | .error err =>
      if err.message = "SAP API returned status 404" then
        .errorResp 404 "Maintenance order not found" "ORDER_NOT_FOUND"
      else
        .errorResp 500 "Failed to retrieve maintenance order" "RETRIEVAL_ERROR"
    | .ok st => .okResp st

/-- One event processed by the `select` loop of `MonitorOrderStatus`: the
`<-ctx.Done()` branch firing with `ctx.Err() = e`, or the `<-ticker.C`
branch firing with the given fetch result. -/
inductive TickEvent where
  | cancelled : GoError → TickEvent
  | tick : Except GoError MaintenanceOrderStatus → TickEvent

/-- What one monitoring run did: `result` is `none` while the loop is still
waiting after the given events, `some r` once the Go function returned `r`
(`none` being a nil error); `fetches` counts `GetMaintenanceOrderStatus`
calls; `callbackCalls` lists the arguments of the callback invocations. -/
structure MonitorOutcome where
  result : Option (Option GoError)
  fetches : Nat
  callbackCalls : List MaintenanceOrderStatus
deriving DecidableEq, Repr

/-- `MaintenanceService.MonitorOrderStatus`
(`internal/services/maintenance.go:140`) run over the events its loop
processes.  Cancellation returns `ctx.Err()`; a failed fetch logs and
continues; a fetched status in `TECO`/`CLSD` invokes the callback (when
non-nil) and returns its error, or nil; anything else continues. -/
def MonitorOrderStatus
    (callback : Option (MaintenanceOrderStatus → Option GoError)) :
    List TickEvent → MonitorOutcome
  | [] => { result := none, fetches := 0, callbackCalls := [] }
  | TickEvent.cancelled ctxErr :: _ =>
    { result := some (some ctxErr), fetches := 0, callbackCalls := [] }
  | TickEvent.tick (.error _) :: rest =>
    let o := MonitorOrderStatus callback rest
    { o with fetches := o.fetches + 1 }
  | TickEvent.tick (.ok status) :: rest =>
    if status.status == "TECO" || status.status == "CLSD" then
      match callback with
      | none => { result := some none, fetches := 1, callbackCalls := [] }
      | some cb =>
        { result := some (cb status), fetches := 1, callbackCalls := [status] }
    else
      let o := MonitorOrderStatus callback rest
      { o with fetches := o.fetches + 1 }

/-- Terminal statuses: the loop's exit condition `status.Status == "TECO" ||
status.Status == "CLSD"`. -/
def isTerminalStatus (s : String) : Bool :=
  s == "TECO" || s == "CLSD"

/-- Whether an event is a ticker firing (each consumed one costs a fetch). -/
def isTick : TickEvent → Bool
  | .tick _ => true
  | .cancelled _ => false

/-- Number of ticker firings in an event list. -/
def countTicks (events : List TickEvent) : Nat :=
  (events.filter isTick).length

/-- An event the loop passes over without returning: a ticker firing whose
fetch failed, or whose fetched status is non-terminal. -/
def nonTerminalEvent : TickEvent → Bool
  | .cancelled _ => false
  | .tick (.error _) => true
  | .tick (.ok st) => !isTerminalStatus st.status

/-- `time.NewTicker(interval)` (used at `internal/services/maintenance.go:143`
with a 30-second interval) delivers its `k`-th tick, counting from zero,
one whole interval after the previous one, the first a full interval after
creation — never at creation time. -/
def tickDeliveryTime (interval k : Nat) : Nat :=
  (k + 1) * interval

instance {ε α : Type} [DecidableEq ε] [DecidableEq α] : DecidableEq (Except ε α) := fun
  | .error e₁, .error e₂ =>
    if h : e₁ = e₂ then isTrue (by rw [h]) else
      isFalse (by intro hh; injection hh; contradiction)
  | .error _, .ok _ => isFalse fun h => Except.noConfusion h
  | .ok _, .error _ => isFalse fun h => Except.noConfusion h
  | .ok a₁, .ok a₂ =>
    if h : a₁ = a₂ then isTrue (by rw [h]) else
      isFalse (by intro hh; injection hh; contradiction)

/-- A concrete `TimeModel` instantiation for closed evaluations: instants
rendered as decimal strings.  (Claims quantify over every `TimeModel`; this
one only feeds concrete witnesses.) -/
def tmTest : TimeModel :=
  { formatRFC3339 := fun t => toString t
    parseRFC3339 := fun s => s.toNat?
    formatFloat := fun q => toString q
    parseFloat := fun _ => none }

/-- The concrete event of the spec's §8 scenario. -/
def evSample : MaintenanceOrderEvent :=
  { equipmentID := "10000045"
    functionalLocation := "FL100-200-300"
    plant := "1000"
    description := "Replace pump seal"
    priority := "3"
    maintenanceOrderType := "PM01"
    plannedStartTime := some 100
    plannedEndTime := none
    operations := [{ text := "Disassemble pump", workCenter := "PUMP-WC01",
                     duration := 4, durationUnit := "H" }] }

/-- A fixed notification response for test-double gateways. -/
def notifRespSample : SAPNotificationResponse :=
  { d := { notification := "200000123", description := "Replace pump seal",
           plant := "1000" } }

/-- Order response echoing id `"400000123"`. -/
def orderRespSampleA : SAPOrderResponse :=
  createMockOrderStatusResponse tmTest 0 "400000123"

/-- Order response echoing id `"400000999"`. -/
def orderRespSampleB : SAPOrderResponse :=
  createMockOrderStatusResponse tmTest 0 "400000999"

/-- A test-double gateway whose get-order answers with a different order id
than its create-order, triggering the verification mismatch. -/
def gwMismatch : Gateway :=
  { createNotification := fun _ => .ok notifRespSample
    createOrder := fun _ => .ok orderRespSampleA
    getOrder := fun _ => .ok orderRespSampleB }

/-- A test-double gateway whose notification creation fails. -/
def gwNotifFail : Gateway :=
  { createNotification := fun _ => .error (.base "connection refused")
    createOrder := fun _ => .ok orderRespSampleA
    getOrder := fun _ => .ok orderRespSampleA }

/-- A back end that reports the order absent: get-order answers HTTP 404
with an empty body, which the live client surfaces as
`fmt.Errorf("SAP API returned status %d: %s", 404, body)`. -/
def gw404 : Gateway :=
  { createNotification := fun _ => .error (.base "unused")
    createOrder := fun _ => .error (.base "unused")
    getOrder := fun _ => .error (sapAPIStatusError 404 "") }

/-- A configuration with no base URL and the simulator flag off. -/
def cfgNoURL : SAPConfig :=
  { baseURL := "", username := "", password := "", clientID := "",
    clientSecret := "", tokenURL := "", timeout := 30, simulatorMode := false }

/-- A caller-side status view fixture with the given order id and status. -/
def mkStatusView (orderID status : String) : MaintenanceOrderStatus :=
  { orderID := orderID, status := status, description := "", equipmentID := "",
    plant := "", notificationID := "", actualStartTime := none,
    actualEndTime := none, operations := [] }

/-- A nonempty string has positive character count. -/
theorem length_pos_of_ne_empty (s : String) (h : s ≠ "") : 0 < s.length := by
  rcases s with ⟨data⟩
  cases data with
  | nil => exact absurd rfl h
  | cons c cs => simp [String.length]

/-- C3: for every non-empty order id, the Simulated Gateway's get-order
synthesizes a status that is a pure, time-invariant function of the id's
last character — CRTD for 0/1/2, REL for 3/4/5, TECO for 6/7/8, CLSD for 9 —
so repeated calls with the same id agree, and `FetchStatus`
(`GetMaintenanceOrderStatus`) on an id ending in 9 returns status CLSD. -/
theorem simulated_getOrder_status_pure (tm : TimeModel) (t₁ t₂ tN tO tG : GoTime)
    (orderID : String) (hne : orderID ≠ "") :
    ((createMockOrderStatusResponse tm t₁ orderID).d.orderStatus =
      (createMockOrderStatusResponse tm t₂ orderID).d.orderStatus) ∧
    ((createMockOrderStatusResponse tm t₁ orderID).d.orderStatus =
      mockStatusFromID orderID) ∧
    ((lastChar orderID = '0' ∨ lastChar orderID = '1' ∨
        lastChar orderID = '2') →
      (createMockOrderStatusResponse tm t₁ orderID).d.orderStatus = "CRTD") ∧
    ((lastChar orderID = '3' ∨ lastChar orderID = '4' ∨
        lastChar orderID = '5') →
      (createMockOrderStatusResponse tm t₁ orderID).d.orderStatus = "REL") ∧
    ((lastChar orderID = '6' ∨ lastChar orderID = '7' ∨
        lastChar orderID = '8') →
      (createMockOrderStatusResponse tm t₁ orderID).d.orderStatus = "TECO") ∧
    (lastChar orderID = '9' →
      (createMockOrderStatusResponse tm t₁ orderID).d.orderStatus = "CLSD") ∧
    (lastChar orderID = '9' →
      ∃ st, GetMaintenanceOrderStatus tm (simulatedGateway tm tN tO tG) orderID =
        Except.ok st ∧ st.status = "CLSD") := by
  have hpos : 0 < orderID.length := length_pos_of_ne_empty _ hne
  refine ⟨rfl, rfl, ?_, ?_, ?_, ?_, ?_⟩
  · rintro (h | h | h) <;> simp [createMockOrderStatusResponse, mockStatusFromID, hpos, h]
  · rintro (h | h | h) <;> simp [createMockOrderStatusResponse, mockStatusFromID, hpos, h]
  · rintro (h | h | h) <;> simp [createMockOrderStatusResponse, mockStatusFromID, hpos, h]
  · intro h
    simp [createMockOrderStatusResponse, mockStatusFromID, hpos, h]
  · intro h
    refine ⟨ConvertSAPOrderResponseToStatus tm (createMockOrderStatusResponse tm tG orderID),
      rfl, ?_⟩
    simp [ConvertSAPOrderResponseToStatus, createMockOrderStatusResponse,
      mockStatusFromID, hpos, h]

/-- C3 witness: `FetchStatus` on the concrete simulated order id
`"400000129"`, which ends in 9, returns status CLSD. -/
theorem simulated_getOrder_status_pure_witness :
    ∃ st, GetMaintenanceOrderStatus tmTest (simulatedGateway tmTest 0 0 0) "400000129" =
      Except.ok st ∧ st.status = "CLSD" :=
  (simulated_getOrder_status_pure tmTest 0 0 0 0 0 "400000129"
    (by decide)).2.2.2.2.2.2 (by decide)

/-- C2: against the Simulated Gateway, `SubmitOrder`
(`ProcessMaintenanceOrderEvent`) always succeeds for every event and every
choice of per-call clock readings — in particular the id-verification step
passes because the simulated get-order echoes the requested id — and the
returned status equals the value the simulated get-order derives from the
returned order id's last character via the fixed mapping. -/
theorem submit_simulated_always_succeeds (tm : TimeModel) (tN tO tG now : GoTime)
    (event : MaintenanceOrderEvent) :
    ∃ resp, ProcessMaintenanceOrderEvent tm (simulatedGateway tm tN tO tG) event now =
        Except.ok resp ∧
      resp.status = mockStatusFromID resp.orderID ∧
      resp.orderID = mockOrderID tO := by
  refine ⟨{ orderID := mockOrderID tO
            notificationID := mockNotificationID tN
            status := mockStatusFromID (mockOrderID tO)
            message := "Maintenance order created successfully"
            createdAt := now }, ?_, rfl, rfl⟩
  simp [ProcessMaintenanceOrderEvent, simulatedGateway, createMockNotificationResponse,
    createMockOrderResponse, createMockOrderStatusResponse]

/-- C1: within one `SubmitOrder` (`ProcessMaintenanceOrderEvent`) the
gateway sees at most three calls, strictly in order: create-notification
with the translated request first; then, only if it succeeded,
create-order with a request whose notification reference is the id the
notification creation returned; then, only if that succeeded, get-order on
the id the order creation returned.  A failing step aborts the run with no
later call issued, and a verification read whose order id differs from the
created one makes the run fail with the verification error after exactly
those three calls. -/
theorem submit_call_sequence (tm : TimeModel) (g : Gateway)
    (event : MaintenanceOrderEvent) (now : GoTime) :
    ((ProcessMaintenanceOrderEventCalls tm g event).head? =
      some (GatewayCall.createNotification
        (ConvertMaintenanceOrderEventToNotificationRequest event))) ∧
    ((ProcessMaintenanceOrderEventCalls tm g event).length ≤ 3) ∧
    (∀ err, g.createNotification
        (ConvertMaintenanceOrderEventToNotificationRequest event) = .error err →
      ProcessMaintenanceOrderEventCalls tm g event =
        [GatewayCall.createNotification
          (ConvertMaintenanceOrderEventToNotificationRequest event)] ∧
      ProcessMaintenanceOrderEvent tm g event now =
        .error (.wrap "failed to create SAP notification: " err)) ∧
    (∀ nresp, g.createNotification
        (ConvertMaintenanceOrderEventToNotificationRequest event) = .ok nresp →
      (ConvertMaintenanceOrderEventToOrderRequest tm event
          nresp.d.notification).maintenanceNotification = nresp.d.notification ∧
      (∀ err, g.createOrder (ConvertMaintenanceOrderEventToOrderRequest tm event
          nresp.d.notification) = .error err →
        ProcessMaintenanceOrderEventCalls tm g event =
          [GatewayCall.createNotification
            (ConvertMaintenanceOrderEventToNotificationRequest event),
           GatewayCall.createOrder (ConvertMaintenanceOrderEventToOrderRequest tm event
            nresp.d.notification)] ∧
        ProcessMaintenanceOrderEvent tm g event now =
          .error (.wrap "failed to create SAP order: " err)) ∧
      (∀ oresp, g.createOrder (ConvertMaintenanceOrderEventToOrderRequest tm event
          nresp.d.notification) = .ok oresp →
        ProcessMaintenanceOrderEventCalls tm g event =
          [GatewayCall.createNotification
            (ConvertMaintenanceOrderEventToNotificationRequest event),
           GatewayCall.createOrder (ConvertMaintenanceOrderEventToOrderRequest tm event
            nresp.d.notification),
           GatewayCall.getOrder oresp.d.maintenanceOrder] ∧
        (∀ vresp, g.getOrder oresp.d.maintenanceOrder = .ok vresp →
          vresp.d.maintenanceOrder ≠ oresp.d.maintenanceOrder →
          ProcessMaintenanceOrderEvent tm g event now =
            .error (.base ("order verification failed: expected " ++
              oresp.d.maintenanceOrder ++ ", got " ++ vresp.d.maintenanceOrder))))) := by
  refine ⟨rfl, ?_, ?_, ?_⟩
  · rcases h₁ : g.createNotification
      (ConvertMaintenanceOrderEventToNotificationRequest event) with err | nresp
    · simp [ProcessMaintenanceOrderEventCalls, h₁]
    · rcases h₂ : g.createOrder (ConvertMaintenanceOrderEventToOrderRequest tm event
        nresp.d.notification) with err | oresp <;>
        simp [ProcessMaintenanceOrderEventCalls, h₁, h₂]
  · intro err h₁
    exact ⟨by simp [ProcessMaintenanceOrderEventCalls, h₁],
      by simp [ProcessMaintenanceOrderEvent, h₁]⟩
  · intro nresp h₁
    refine ⟨rfl, ?_, ?_⟩
    · intro err h₂
      exact ⟨by simp [ProcessMaintenanceOrderEventCalls, h₁, h₂],
        by simp [ProcessMaintenanceOrderEvent, h₁, h₂]⟩
    · intro oresp h₂
      refine ⟨by simp [ProcessMaintenanceOrderEventCalls, h₁, h₂], ?_⟩
      intro vresp h₃ hne
      simp [ProcessMaintenanceOrderEvent, h₁, h₂, h₃, hne]

/-- C1 witness: against a test double that creates order `"400000123"` but
reads back `"400000999"`, the submission fails with the verification error
after exactly three gateway calls. -/
theorem submit_call_sequence_witness :
    ProcessMaintenanceOrderEvent tmTest gwMismatch evSample 0 =
      .error (.base "order verification failed: expected 400000123, got 400000999") ∧
    (ProcessMaintenanceOrderEventCalls tmTest gwMismatch evSample).length = 3 := by
  have h := (submit_call_sequence tmTest gwMismatch evSample 0).2.2.2
    notifRespSample rfl
  have h₂ := h.2.2 orderRespSampleA rfl
  constructor
  · have h₃ := h₂.2 orderRespSampleB rfl (by decide)
    rw [h₃]
    rfl
  · rw [h₂.1]
    rfl

/-- C7 counterexample: when notification creation fails with the error
`"connection refused"`, `SubmitOrder` does not return that error value
unmodified — it returns it wrapped under the step message
`"failed to create SAP notification: "` (via `fmt.Errorf` with `%w`), so
the returned value and its message differ from the step's own error. -/
theorem submit_error_not_unmodified :
    gwNotifFail.createNotification
      (ConvertMaintenanceOrderEventToNotificationRequest evSample) =
        .error (.base "connection refused") ∧
    ProcessMaintenanceOrderEvent tmTest gwNotifFail evSample 0 ≠
      .error (.base "connection refused") ∧
    ProcessMaintenanceOrderEvent tmTest gwNotifFail evSample 0 =
      .error (.wrap "failed to create SAP notification: " (.base "connection refused")) := by
  refine ⟨rfl, ?_, rfl⟩
  intro h
  simp [ProcessMaintenanceOrderEvent, gwNotifFail] at h

/-- C7 (amended): `SubmitOrder` aborts on the first failing step and returns
that step's error wrapped — `%w`-style, preserving the underlying error as
the wrapped component — under a step-identifying message
(`"failed to create SAP notification: "`, `"failed to create SAP order: "`,
`"failed to verify order creation:"`), so the caller can still tell which
step failed from the returned error. -/
theorem submit_error_wrapping (tm : TimeModel) (g : Gateway)
    (event : MaintenanceOrderEvent) (now : GoTime) (err : GoError) :
    (g.createNotification
        (ConvertMaintenanceOrderEventToNotificationRequest event) = .error err →
      ProcessMaintenanceOrderEvent tm g event now =
        .error (.wrap "failed to create SAP notification: " err)) ∧
    (∀ nresp, g.createNotification
        (ConvertMaintenanceOrderEventToNotificationRequest event) = .ok nresp →
      g.createOrder (ConvertMaintenanceOrderEventToOrderRequest tm event
        nresp.d.notification) = .error err →
      ProcessMaintenanceOrderEvent tm g event now =
        .error (.wrap "failed to create SAP order: " err)) ∧
    (∀ nresp oresp, g.createNotification
        (ConvertMaintenanceOrderEventToNotificationRequest event) = .ok nresp →
      g.createOrder (ConvertMaintenanceOrderEventToOrderRequest tm event
        nresp.d.notification) = .ok oresp →
      g.getOrder oresp.d.maintenanceOrder = .error err →
      ProcessMaintenanceOrderEvent tm g event now =
        .error (.wrap "failed to verify order creation: " err)) := by
  refine ⟨?_, ?_, ?_⟩
  · intro h₁
    simp [ProcessMaintenanceOrderEvent, h₁]
  · intro nresp h₁ h₂
    simp [ProcessMaintenanceOrderEvent, h₁, h₂]
  · intro nresp oresp h₁ h₂ h₃
    simp [ProcessMaintenanceOrderEvent, h₁, h₂, h₃]

/-- C7 amended-claim witness: the concrete failing gateway from the
counterexample yields exactly the step-wrapped error. -/
theorem submit_error_wrapping_witness :
    ProcessMaintenanceOrderEvent tmTest gwNotifFail evSample 0 =
      .error (.wrap "failed to create SAP notification: " (.base "connection refused")) :=
  (submit_error_wrapping tmTest gwNotifFail evSample 0
    (.base "connection refused")).1 rfl

/-- C6: the not-found case is NOT surfaced as a distinguishable error and
the handler's 404 branch can never fire.  `GetMaintenanceOrderStatus` wraps
the gateway's 404 error under `"failed to get order from SAP: "` and the
gateway error itself carries a `": <body>"` suffix, so the handler's
comparison of the full message against `"SAP API returned status 404"`
fails for every body — here the back end reports 404 for order
`"400000123"` and the handler answers 500 RETRIEVAL_ERROR, not 404
ORDER_NOT_FOUND. -/
theorem getOrder_notFound_maps_to_500 :
    GetMaintenanceOrder tmTest gw404 "400000123" =
      .errorResp 500 "Failed to retrieve maintenance order" "RETRIEVAL_ERROR" ∧
    GetMaintenanceOrder tmTest gw404 "400000123" ≠
      .errorResp 404 "Maintenance order not found" "ORDER_NOT_FOUND" ∧
    (∀ body : String, (GoError.wrap "failed to get order from SAP: "
        (sapAPIStatusError 404 body)).message ≠ "SAP API returned status 404") := by
  refine ⟨by decide, by decide, ?_⟩
  intro body h
  simp only [GoError.message, sapAPIStatusError] at h
  have h404 : (toString (404 : Nat)) = "404" := rfl
  rw [h404] at h
  have hl := congrArg String.length h
  have l1 : ("failed to get order from SAP: " : String).length = 30 := rfl
  have l2 : ("SAP API returned status " : String).length = 24 := rfl
  have l3 : ("404" : String).length = 3 := rfl
  have l4 : (": " : String).length = 2 := rfl
  have l5 : ("SAP API returned status 404" : String).length = 27 := rfl
  simp only [String.length_append, l1, l2, l3, l4, l5] at hl
  omega

/-- C8: for every event and notification id, the order-request translation
sets the planning plant equal to the execution plant, renders the optional
planned start/end instants through the fixed RFC3339 formatter exactly when
present (leaving the Go zero value `""`, i.e. an omitted `omitempty` field,
otherwise), sets the notification back-reference to the given id, and maps
each operation, in order, to one operation line whose duration is rendered
by `strconv.FormatFloat(_, 'f', -1, 64)` — the shortest decimal form that
parses back to the same value — here abstracted as the `formatFloat` field
of the ambient `TimeModel`. -/
theorem convertOrderRequest_fields (tm : TimeModel)
    (event : MaintenanceOrderEvent) (notificationID : String) :
    (ConvertMaintenanceOrderEventToOrderRequest tm event
      notificationID).maintenancePlanningPlant = event.plant ∧
    (ConvertMaintenanceOrderEventToOrderRequest tm event
      notificationID).maintenanceNotification = notificationID ∧
    (∀ t, event.plannedStartTime = some t →
      (ConvertMaintenanceOrderEventToOrderRequest tm event
        notificationID).maintOrdBasicStartDateTime = tm.formatRFC3339 t) ∧
    (event.plannedStartTime = none →
      (ConvertMaintenanceOrderEventToOrderRequest tm event
        notificationID).maintOrdBasicStartDateTime = "") ∧
    (∀ t, event.plannedEndTime = some t →
      (ConvertMaintenanceOrderEventToOrderRequest tm event
        notificationID).maintOrdBasicEndDateTime = tm.formatRFC3339 t) ∧
    (event.plannedEndTime = none →
      (ConvertMaintenanceOrderEventToOrderRequest tm event
        notificationID).maintOrdBasicEndDateTime = "") ∧
    (ConvertMaintenanceOrderEventToOrderRequest tm event
      notificationID).toMaintenanceOrderOperation =
      event.operations.map (fun op =>
        { operationText := op.text
          workCenter := op.workCenter
          plant := event.plant
          operationControlKey := event.maintenanceOrderType
          operationStandardDuration := tm.formatFloat op.duration
          operationDurationUnit := op.durationUnit }) := by
  refine ⟨rfl, rfl, ?_, ?_, ?_, ?_, rfl⟩
  · intro t h
    simp [ConvertMaintenanceOrderEventToOrderRequest, h]
  · intro h
    simp [ConvertMaintenanceOrderEventToOrderRequest, h]
  · intro t h
    simp [ConvertMaintenanceOrderEventToOrderRequest, h]
  · intro h
    simp [ConvertMaintenanceOrderEventToOrderRequest, h]

/-- C8 witness: for the concrete sample event, whose planned start is set
and planned end is absent, the start field carries the formatted instant
and the end field stays empty, and the single operation line carries the
formatted duration. -/
theorem convertOrderRequest_fields_witness :
    (ConvertMaintenanceOrderEventToOrderRequest tmTest evSample
      "200000123").maintOrdBasicStartDateTime = tmTest.formatRFC3339 100 ∧
    (ConvertMaintenanceOrderEventToOrderRequest tmTest evSample
      "200000123").maintOrdBasicEndDateTime = "" := by
  have h := convertOrderRequest_fields tmTest evSample "200000123"
  exact ⟨h.2.2.1 100 rfl, h.2.2.2.2.2.1 rfl⟩

/-- C9: `NewClient` switches to the simulator exactly when the
`SimulatorMode` flag is set, the configured base URL is empty, or it equals
`"simulator"`.  With an empty base URL each of the three client operations
stays in memory (returns a mock, never reaching the network branch)
whatever the flag says, and live mode holds exactly when the flag is unset
and the base URL is non-empty and differs from `"simulator"`. -/
theorem newClient_simulator_selection (cfg : SAPConfig) :
    ((NewClient cfg).simulatorMode =
      (cfg.simulatorMode || (cfg.baseURL == "") || (cfg.baseURL == "simulator"))) ∧
    (cfg.baseURL = "" → ∀ (tm : TimeModel) (t : GoTime)
        (req : SAPNotificationRequest) (oreq : SAPOrderRequest) (orderID : String),
      ((NewClient cfg).CreateNotificationAction t req).isMock = true ∧
      ((NewClient cfg).CreateOrderAction t oreq).isMock = true ∧
      ((NewClient cfg).GetOrderAction tm t orderID).isMock = true) ∧
    ((NewClient cfg).simulatorMode = false ↔
      (cfg.simulatorMode = false ∧ cfg.baseURL ≠ "" ∧ cfg.baseURL ≠ "simulator")) := by
  refine ⟨rfl, ?_, ?_⟩
  · intro h tm t req oreq orderID
    refine ⟨?_, ?_, ?_⟩ <;>
      simp [NewClient, Client.CreateNotificationAction, Client.CreateOrderAction,
        Client.GetOrderAction, ClientAction.isMock, h]
  · simp [NewClient]
    tauto

/-- C9 witness: with an empty base URL and the simulator flag off, all three
client operations stay in memory. -/
theorem newClient_simulator_selection_witness :
    ((NewClient cfgNoURL).CreateNotificationAction 0
      (ConvertMaintenanceOrderEventToNotificationRequest evSample)).isMock = true ∧
    ((NewClient cfgNoURL).CreateOrderAction 0
      (ConvertMaintenanceOrderEventToOrderRequest tmTest evSample
        "200000123")).isMock = true ∧
    ((NewClient cfgNoURL).GetOrderAction tmTest 0 "400000123").isMock = true :=
  (newClient_simulator_selection cfgNoURL).2.1 rfl tmTest 0
    (ConvertMaintenanceOrderEventToNotificationRequest evSample)
    (ConvertMaintenanceOrderEventToOrderRequest tmTest evSample "200000123")
    "400000123"

/-- C4: over any run whose ticks first yield only failed fetches and
non-terminal statuses and then a first terminal status, the monitor skips
the failures without aborting, invokes the callback exactly once — with
that first terminal view — fetches nothing after it (events past the
terminal tick are never consumed), and returns the handler's own result:
the handler's error, or nil on handler success. -/
theorem monitor_first_terminal (cb : MaintenanceOrderStatus → Option GoError)
    (pre post : List TickEvent) (term : MaintenanceOrderStatus)
    (hpre : pre.all nonTerminalEvent = true)
    (hterm : isTerminalStatus term.status = true) :
    MonitorOrderStatus (some cb) (pre ++ TickEvent.tick (.ok term) :: post) =
      { result := some (cb term), fetches := countTicks pre + 1,
        callbackCalls := [term] } := by
  induction pre with
  | nil =>
    have hterm' : (term.status == "TECO" || term.status == "CLSD") = true := hterm
    simp [MonitorOrderStatus, hterm', countTicks]
  | cons ev rest ih =>
    simp only [List.all_cons, Bool.and_eq_true] at hpre
    obtain ⟨h₁, h₂⟩ := hpre
    cases ev with
    | cancelled e => simp [nonTerminalEvent] at h₁
    | tick r =>
      cases r with
      | error e =>
        simp [MonitorOrderStatus, ih h₂, countTicks, isTick]
      | ok st =>
        have hst : (st.status == "TECO" || st.status == "CLSD") = false := by
          have := h₁
          simp only [nonTerminalEvent, isTerminalStatus, Bool.not_eq_true'] at this
          exact this
        simp [MonitorOrderStatus, hst, ih h₂, countTicks, isTick]

/-- C4 witness: a failed fetch, then CRTD, then TECO, with one more
(unconsumed) tick queued behind: the callback runs once on the TECO view,
three fetches happen, and the monitor returns the handler's nil result. -/
theorem monitor_first_terminal_witness :
    MonitorOrderStatus (some fun _ => none)
      ([TickEvent.tick (.error (.base "dial tcp: connection refused")),
        TickEvent.tick (.ok (mkStatusView "400000121" "CRTD"))] ++
        TickEvent.tick (.ok (mkStatusView "400000126" "TECO")) ::
        [TickEvent.tick (.ok (mkStatusView "400000129" "CLSD"))]) =
      { result := some none, fetches := 3,
        callbackCalls := [mkStatusView "400000126" "TECO"] } :=
  monitor_first_terminal (fun _ => none)
    [TickEvent.tick (.error (.base "dial tcp: connection refused")),
     TickEvent.tick (.ok (mkStatusView "400000121" "CRTD"))]
    [TickEvent.tick (.ok (mkStatusView "400000129" "CLSD"))]
    (mkStatusView "400000126" "TECO") (by decide) (by decide)

/-- C5: if cancellation is observed before any terminal status — the prior
ticks being any mix of failed fetches and non-terminal statuses — the
monitor returns the cancellation error (`ctx.Err()`), never invokes the
callback, and consumes nothing after the cancellation, even when a
terminal status sits in the next queued tick. -/
theorem monitor_cancelled_before_terminal
    (cb : MaintenanceOrderStatus → Option GoError)
    (pre post : List TickEvent) (ctxErr : GoError)
    (hpre : pre.all nonTerminalEvent = true) :
    MonitorOrderStatus (some cb) (pre ++ TickEvent.cancelled ctxErr :: post) =
      { result := some (some ctxErr), fetches := countTicks pre,
        callbackCalls := [] } := by
  induction pre with
  | nil => simp [MonitorOrderStatus, countTicks]
  | cons ev rest ih =>
    simp only [List.all_cons, Bool.and_eq_true] at hpre
    obtain ⟨h₁, h₂⟩ := hpre
    cases ev with
    | cancelled e => simp [nonTerminalEvent] at h₁
    | tick r =>
      cases r with
      | error e =>
        simp [MonitorOrderStatus, ih h₂, countTicks, isTick]
      | ok st =>
        have hst : (st.status == "TECO" || st.status == "CLSD") = false := by
          have := h₁
          simp only [nonTerminalEvent, isTerminalStatus, Bool.not_eq_true'] at this
          exact this
        simp [MonitorOrderStatus, hst, ih h₂, countTicks, isTick]

/-- C5 witness: one failed fetch (a fetch aborted mid-flight by the
cancellation), then the cancellation, with a TECO tick queued behind it:
the monitor returns the context error after one fetch and no callback. -/
theorem monitor_cancelled_before_terminal_witness :
    MonitorOrderStatus (some fun _ => none)
      ([TickEvent.tick (.error (.base "context canceled"))] ++
        TickEvent.cancelled (.base "context canceled") ::
        [TickEvent.tick (.ok (mkStatusView "400000126" "TECO"))]) =
      { result := some (some (.base "context canceled")), fetches := 1,
        callbackCalls := [] } :=
  monitor_cancelled_before_terminal (fun _ => none)
    [TickEvent.tick (.error (.base "context canceled"))]
    [TickEvent.tick (.ok (mkStatusView "400000126" "TECO"))]
    (.base "context canceled") (by decide)

/-- Consuming a ticker event costs one tick of the schedule. -/
theorem countTicks_tick_cons (r : Except GoError MaintenanceOrderStatus)
    (rest : List TickEvent) :
    countTicks (TickEvent.tick r :: rest) = countTicks rest + 1 := by
  simp [countTicks, isTick]

/-- C10: the loop performs no fetch at entry — zero events processed means
zero fetches, and a fetch can only be triggered by a ticker delivery, whose
first firing `tickDeliveryTime interval 0` is one whole interval after
creation; cancellation as the first processed event returns the context
error with no fetch and no callback ever made, and the callback can only
have run if at least one tick was delivered. -/
theorem monitor_no_fetch_before_first_tick (interval : Nat)
    (cb : Option (MaintenanceOrderStatus → Option GoError)) :
    tickDeliveryTime interval 0 = interval ∧
    MonitorOrderStatus cb [] = { result := none, fetches := 0, callbackCalls := [] } ∧
    (∀ ctxErr post, MonitorOrderStatus cb (TickEvent.cancelled ctxErr :: post) =
      { result := some (some ctxErr), fetches := 0, callbackCalls := [] }) ∧
    (∀ events, (MonitorOrderStatus cb events).fetches ≤ countTicks events) ∧
    (∀ events, (MonitorOrderStatus cb events).callbackCalls ≠ [] →
      1 ≤ countTicks events) := by
  refine ⟨by simp [tickDeliveryTime], rfl, fun ctxErr post => rfl, ?_, ?_⟩
  · intro events
    induction events with
    | nil => simp [MonitorOrderStatus, countTicks]
    | cons ev rest ih =>
      cases ev with
      | cancelled e => simp [MonitorOrderStatus, countTicks]
      | tick r =>
        cases r with
        | error e =>
          simp [MonitorOrderStatus, countTicks_tick_cons]
          omega
        | ok st =>
          by_cases hb : (st.status == "TECO" || st.status == "CLSD") = true
          · cases cb <;> simp [MonitorOrderStatus, hb, countTicks_tick_cons]
          · have hb' : (st.status == "TECO" || st.status == "CLSD") = false :=
              Bool.eq_false_iff.mpr hb
            simp [MonitorOrderStatus, hb', countTicks_tick_cons]
            omega
  · intro events h
    induction events with
    | nil => simp [MonitorOrderStatus] at h
    | cons ev rest ih =>
      cases ev with
      | cancelled e => simp [MonitorOrderStatus] at h
      | tick r => simp [countTicks_tick_cons]

/-- C10 witness: an empty run fetches nothing and a run processing a
TECO tick has a nonempty callback trace only alongside at least one
delivered tick; the first ticker delivery for the production 30-second
interval is at 30 seconds. -/
theorem monitor_no_fetch_before_first_tick_witness :
    tickDeliveryTime 30 0 = 30 ∧
    MonitorOrderStatus (some fun _ => none) [] =
      { result := none, fetches := 0, callbackCalls := [] } ∧
    1 ≤ countTicks [TickEvent.tick (.ok (mkStatusView "400000126" "TECO"))] := by
  have h := monitor_no_fetch_before_first_tick 30 (some fun _ => none)
  refine ⟨h.1, h.2.1, ?_⟩
  exact h.2.2.2.2 [TickEvent.tick (.ok (mkStatusView "400000126" "TECO"))] (by decide)
